import Mathlib

/-!
Shallow embedding of the DWC OTG HCD queue scheduler
(`drivers/usb/dwc_otg/dwc_otg_hcd_queue.c`): Queue Head (QH) and Queue
Transfer Descriptor (QTD) management, periodic bandwidth admission and
frame scheduling.

QHs live on intrusive `list_head` bucket lists inside the HCD state.  We
model a QH's intrusive node `qh_list_entry` by a boolean `linked` on the
QH (`linked = false` iff `list_empty(&qh->qh_list_entry)`), and the five
bucket lists as lists of QH identifiers (`Nat`).  `list_del` of an
intrusive node removes the node from whichever bucket holds it; that is
translated as filtering the identifier out of every bucket.

C integer semantics: machine integers are modelled by `Nat`/`Int` with an
explicit `% 2 ^ 16` where the source truncates to `uint16_t` (the
`max_claimed_usecs` local of `check_periodic_bandwidth`).  `int` fields
(channel counters, `host_channels`) are `Int`.

Helpers declared in headers that are not part of the excerpt
(`dwc_frame_num_inc`, `dwc_frame_num_le`, `dwc_qh_is_non_per`,
`dwc_max_packet`, `dwc_hb_mult`) are modelled from the spec and marked so.
-/

namespace DwcOtg

/-- Endpoint transfer type of a QH (`USB_ENDPOINT_XFER_*`). -/
inductive EpType
  | control
  | isoc
  | bulk
  | interrupt
deriving DecidableEq

/-- Device speed (`USB_SPEED_*`), an abstract attribute of the URB's device. -/
inductive DevSpeed
  | low
  | full
  | high
deriving DecidableEq

/-- URB pipe type (`usb_pipetype`). -/
inductive PipeType
  | isochronous
  | interrupt
  | control
  | bulk
deriving DecidableEq

/-- The fields of `struct urb` (and its device/endpoint) read by this
subsystem; owned by the USB core, read-only here. -/
structure URB where
  pipetype : PipeType
  is_in : Bool
  dev_speed : DevSpeed
  /-- `urb->dev->tt` is non-null. -/
  has_tt : Bool
  /-- `urb->dev->tt->hub->devnum`. -/
  tt_hub_devnum : Nat
  interval : Nat
  /-- result of `usb_maxpacket` (raw `maxp` field, packet size plus
  high-bandwidth multiplier bits). -/
  maxpacket : Nat
deriving DecidableEq

/-- A Queue Head (`dwc_otg_qh_t`): one per endpoint in active use. -/
structure QH where
  ep_type : EpType
  ep_is_in : Nat
  data_toggle : Nat
  maxp : Nat
  do_split : Bool
  usecs : Nat
  interval : Nat
  sched_frame : Nat
  start_split_frame : Nat
  /-- QTD identifiers on `qh->qtd_list`, head first (FIFO order). -/
  qtd_list : List Nat
  /-- `¬ list_empty(&qh->qh_list_entry)`: the QH is linked into a bucket. -/
  linked : Bool
deriving DecidableEq

/-- The scheduler-relevant fields of `dwc_otg_hcd_t` together with the
controller parameters and registers it reads. -/
structure HCD where
  /-- `core_if->core_params->host_channels` (C `int`). -/
  host_channels : Int
  /-- `core_if->core_params->speed == DWC_SPEED_PARAM_HIGH`. -/
  speed_high : Bool
  /-- `core_if->core_params->max_transfer_size`. -/
  max_transfer_size : Nat
  /-- current frame number (`hcd->frame_number`, also what
  `dwc_otg_hcd_get_frame_number` reads back from the HFNUM register). -/
  frame_number : Nat
  /-- `hprt0.b.prtspd == DWC_HPRT0_PRTSPD_HIGH_SPEED` (port speed register). -/
  prtspd_high : Bool
  periodic_channels : Int
  non_periodic_channels : Int
  periodic_usecs : Nat
  /-- usbfs statistics on the usb bus (`hcd_to_bus(..)->bandwidth_*`). -/
  bandwidth_allocated : Nat
  bandwidth_int_reqs : Int
  bandwidth_isoc_reqs : Int
  non_periodic_sched_inactive : List Nat
  non_periodic_sched_active : List Nat
  periodic_sched_inactive : List Nat
  periodic_sched_ready : List Nat
  periodic_sched_queued : List Nat
deriving DecidableEq

/-- The errno used by the admission checks; they return `-ENOSPC` on failure. -/
def ENOSPC : Int := 28

/-- Fixed lead-time (`SCHEDULE_SLOP`) added to the current frame number at QH
creation. -/
def SCHEDULE_SLOP : Nat := 10

/-- Modelled from the spec: frame-number increment used by the scheduler
(`dwc_frame_num_inc`, declared in `dwc_otg_hcd.h` which is not part of the
excerpt).  The spec describes it as plain addition
(`sched_frame = sched_frame + interval`, `current frame number plus 10`). -/
def dwc_frame_num_inc (frame inc : Nat) : Nat := frame + inc

/-- Modelled from the spec: frame-number comparison used for clamping
(`dwc_frame_num_le`, declared in `dwc_otg_hcd.h` which is not part of the
excerpt).  The spec describes the uses as plain ordering ("clamped up to at
least the current frame number", "within one frame of"). -/
def dwc_frame_num_le (f1 f2 : Nat) : Bool := decide (f1 ≤ f2)

/-- Modelled from the spec: `dwc_qh_is_non_per` (declared in
`dwc_otg_hcd.h`).  Per the spec's glossary, non-periodic means control or
bulk transfer type. -/
def dwc_qh_is_non_per (qh : QH) : Bool :=
  decide (qh.ep_type = EpType.bulk ∨ qh.ep_type = EpType.control)

/-- Modelled from the spec: `max_packet_size(maxp)` — the packet-size part
of the raw `maxp` field (its low 11 bits, per the USB wMaxPacketSize
encoding the spec's `maxp` refers to). -/
def dwc_max_packet (maxp : Nat) : Nat := maxp % 2048

/-- Modelled from the spec: `high_bandwidth_mult(maxp)` — the
high-bandwidth transactions-per-microframe multiplier encoded above the
packet-size bits of `maxp`. -/
def dwc_hb_mult (maxp : Nat) : Nat := 1 + (maxp / 2048) % 4

/-- Translation of `dwc_otg_hcd_qh_init`: initializes a QH from an URB.  `usecs_in` is the
result of `NS_TO_US(usb_calc_bus_time(..))`, the external pure bus-time
cost function of the spec's §6 (evaluated only for periodic endpoints). -/
def dwc_otg_hcd_qh_init (hcd : HCD) (urb : URB) (usecs_in : Nat) : QH :=
  let ep_type : EpType :=
    match urb.pipetype with
    | PipeType.control => EpType.control
    | PipeType.bulk => EpType.bulk
    | PipeType.isochronous => EpType.isoc
    | PipeType.interrupt => EpType.interrupt
  let qh0 : QH :=
    { ep_type := ep_type
      ep_is_in := if urb.is_in then 1 else 0
      data_toggle := 0
      maxp := urb.maxpacket
      do_split :=
        decide ((urb.dev_speed = DevSpeed.low ∨ urb.dev_speed = DevSpeed.full) ∧
                urb.has_tt = true ∧ urb.tt_hub_devnum ≠ 1)
      usecs := 0
      interval := 0
      sched_frame := 0
      start_split_frame := 0
      qtd_list := []
      linked := false }
  if ep_type = EpType.interrupt ∨ ep_type = EpType.isoc then
    let sched_frame := dwc_frame_num_inc hcd.frame_number SCHEDULE_SLOP
    if hcd.prtspd_high = true ∧
       (urb.dev_speed = DevSpeed.low ∨ urb.dev_speed = DevSpeed.full) then
      let sf := sched_frame ||| 7
      { qh0 with
          usecs := usecs_in
          interval := urb.interval * 8
          sched_frame := sf
          start_split_frame := sf }
    else
      { qh0 with
          usecs := usecs_in
          interval := urb.interval
          sched_frame := sched_frame }
  else
    qh0

/-- Translation of `periodic_channel_available`: checks that a host channel is free for a
periodic transfer, always keeping one channel for non-periodic traffic. -/
def periodic_channel_available (hcd : HCD) : Int :=
  if hcd.periodic_channels + hcd.non_periodic_channels < hcd.host_channels ∧
     hcd.periodic_channels < hcd.host_channels - 1 then 0 else -ENOSPC

/-- The `uint16_t max_claimed_usecs` local of `check_periodic_bandwidth`:
the C expression `100 - qh->usecs` (high speed) or `900 - qh->usecs` (full
speed) is evaluated in `int` and truncated to `uint16_t` on assignment,
i.e. reduced modulo `2 ^ 16`. -/
def max_claimed_usecs (hcd : HCD) (qh : QH) : Nat :=
  (((if hcd.speed_high then (100 : Int) else 900) - (qh.usecs : Int)) % 65536).toNat

/-- Translation of `check_periodic_bandwidth`: microsecond-budget admission check. -/
def check_periodic_bandwidth (hcd : HCD) (qh : QH) : Int :=
  if hcd.periodic_usecs > max_claimed_usecs hcd qh then -ENOSPC else 0

/-- Translation of `check_max_xfer_size`: per-channel maximum transfer size check. -/
def check_max_xfer_size (hcd : HCD) (qh : QH) : Int :=
  if dwc_max_packet qh.maxp * dwc_hb_mult qh.maxp > hcd.max_transfer_size
  then -ENOSPC else 0

/-- Translation of `schedule_periodic`: runs the three admission checks in order; on
success appends the QH to `periodic_sched_inactive`, reserves a channel,
claims the microseconds, and updates the usbfs bandwidth statistics. -/
def schedule_periodic (hcd : HCD) (qid : Nat) (qh : QH) : HCD × QH × Int :=
  let s1 := periodic_channel_available hcd
  if s1 ≠ 0 then (hcd, qh, s1)
  else
    let s2 := check_periodic_bandwidth hcd qh
    if s2 ≠ 0 then (hcd, qh, s2)
    else
      let s3 := check_max_xfer_size hcd qh
      if s3 ≠ 0 then (hcd, qh, s3)
      else
        ({ hcd with
            periodic_sched_inactive := hcd.periodic_sched_inactive ++ [qid]
            periodic_channels := hcd.periodic_channels + 1
            periodic_usecs := hcd.periodic_usecs + qh.usecs
            bandwidth_allocated := hcd.bandwidth_allocated + qh.usecs / qh.interval
            bandwidth_int_reqs :=
              if qh.ep_type = EpType.interrupt then hcd.bandwidth_int_reqs + 1
              else hcd.bandwidth_int_reqs
            bandwidth_isoc_reqs :=
              if qh.ep_type = EpType.interrupt then hcd.bandwidth_isoc_reqs
              else hcd.bandwidth_isoc_reqs + 1 },
         { qh with linked := true }, 0)

/-- Translation of `dwc_otg_hcd_qh_add`: no-op returning 0 when the QH is already linked
into a schedule; otherwise appends non-periodic QHs to
`non_periodic_sched_inactive` and runs `schedule_periodic` for periodic
ones. -/
def dwc_otg_hcd_qh_add (hcd : HCD) (qid : Nat) (qh : QH) : HCD × QH × Int :=
  if qh.linked then (hcd, qh, 0)
  else if dwc_qh_is_non_per qh then
    ({ hcd with
        non_periodic_sched_inactive := hcd.non_periodic_sched_inactive ++ [qid] },
     { qh with linked := true }, 0)
  else
    schedule_periodic hcd qid qh

/-- Effect of `list_del` on the intrusive `qh_list_entry`: the node is
unlinked from whichever bucket list currently holds it. -/
def qh_list_del (hcd : HCD) (qid : Nat) : HCD :=
  { hcd with
      non_periodic_sched_inactive := hcd.non_periodic_sched_inactive.filter (fun x => x != qid)
      non_periodic_sched_active := hcd.non_periodic_sched_active.filter (fun x => x != qid)
      periodic_sched_inactive := hcd.periodic_sched_inactive.filter (fun x => x != qid)
      periodic_sched_ready := hcd.periodic_sched_ready.filter (fun x => x != qid)
      periodic_sched_queued := hcd.periodic_sched_queued.filter (fun x => x != qid) }

/-- Translation of `deschedule_periodic`: unlinks the QH and releases its channel
reservation, claimed microseconds and usbfs statistics (the inverse of the
bookkeeping done by `schedule_periodic`). -/
def deschedule_periodic (hcd : HCD) (qid : Nat) (qh : QH) : HCD × QH :=
  let hcd1 := qh_list_del hcd qid
  ({ hcd1 with
      periodic_channels := hcd1.periodic_channels - 1
      periodic_usecs := hcd1.periodic_usecs - qh.usecs
      bandwidth_allocated := hcd1.bandwidth_allocated - qh.usecs / qh.interval
      bandwidth_int_reqs :=
        if qh.ep_type = EpType.interrupt then hcd1.bandwidth_int_reqs - 1
        else hcd1.bandwidth_int_reqs
      bandwidth_isoc_reqs :=
        if qh.ep_type = EpType.interrupt then hcd1.bandwidth_isoc_reqs
        else hcd1.bandwidth_isoc_reqs - 1 },
   { qh with linked := false })

/-- Translation of `dwc_otg_hcd_qh_remove`: no-op when the QH is not in a schedule;
otherwise unlinks it (and for periodic QHs releases its reservation).  The
`non_periodic_qh_ptr` cursor advance of the non-periodic branch is not
modelled (no property here concerns the execution engine's cursor). -/
def dwc_otg_hcd_qh_remove (hcd : HCD) (qid : Nat) (qh : QH) : HCD × QH :=
  if qh.linked = false then (hcd, qh)
  else if dwc_qh_is_non_per qh then
    (qh_list_del hcd qid, { qh with linked := false })
  else
    deschedule_periodic hcd qid qh

/-- Computation of the next `sched_frame` done by the periodic branch of
`dwc_otg_hcd_qh_deactivate` (the split / non-split cases on the `qh`
fields, before any list manipulation). -/
def compute_next_sched_frame (hcd : HCD) (qh : QH)
    (sched_next_periodic_split : Bool) : QH :=
  let frame_number := hcd.frame_number
  if qh.do_split then
    if sched_next_periodic_split then
      let qh1 := { qh with sched_frame := frame_number }
      if dwc_frame_num_le frame_number
          (dwc_frame_num_inc qh.start_split_frame 1) then
        if qh.ep_type ≠ EpType.isoc ∨ qh.ep_is_in ≠ 0 then
          { qh1 with sched_frame := dwc_frame_num_inc qh1.sched_frame 1 }
        else qh1
      else qh1
    else
      let sf0 := dwc_frame_num_inc qh.start_split_frame qh.interval
      let sf1 := if dwc_frame_num_le sf0 frame_number then frame_number else sf0
      let sf2 := sf1 ||| 7
      { qh with sched_frame := sf2, start_split_frame := sf2 }
  else
    let sf0 := dwc_frame_num_inc qh.sched_frame qh.interval
    let sf1 := if dwc_frame_num_le sf0 frame_number then frame_number else sf0
    { qh with sched_frame := sf1 }

/-- Translation of `dwc_otg_hcd_qh_deactivate`: repositions a QH after service of its
head-of-line QTD.  Non-periodic QHs are removed and re-added to the
inactive non-periodic schedule while QTDs remain.  Periodic QHs get their
next `sched_frame` computed (split and non-split cases); a drained QH is
removed entirely, otherwise it is moved to `periodic_sched_ready` when the
new frame equals the current frame number, else to
`periodic_sched_inactive` (`list_move` unlinks the entry and relinks it at
the head of the target bucket). -/
def dwc_otg_hcd_qh_deactivate (hcd : HCD) (qid : Nat) (qh : QH)
    (sched_next_periodic_split : Bool) : HCD × QH :=
  if dwc_qh_is_non_per qh then
    let r1 := dwc_otg_hcd_qh_remove hcd qid qh
    if r1.2.qtd_list ≠ [] then
      let r2 := dwc_otg_hcd_qh_add r1.1 qid r1.2
      (r2.1, r2.2.1)
    else r1
  else
    let frame_number := hcd.frame_number
    let qh1 := compute_next_sched_frame hcd qh sched_next_periodic_split
    if qh1.qtd_list = [] then
      dwc_otg_hcd_qh_remove hcd qid qh1
    else
      if qh1.sched_frame = frame_number then
        let hcd1 := qh_list_del hcd qid
        ({ hcd1 with periodic_sched_ready := qid :: hcd1.periodic_sched_ready },
         { qh1 with linked := true })
      else
        let hcd1 := qh_list_del hcd qid
        ({ hcd1 with periodic_sched_inactive := qid :: hcd1.periodic_sched_inactive },
         { qh1 with linked := true })

/-- Translation of `dwc_otg_hcd_qtd_add`: resolves the endpoint's QH (`ep->hcpriv`,
modelled as `ep_hcpriv : Option (Nat × QH)`), creating one when absent
(`alloc_ok` is the outcome of `dwc_otg_hcd_qh_alloc`; `usecs_in` feeds
`dwc_otg_hcd_qh_init`, and `newQhId` is the fresh QH's identifier), then
calls `dwc_otg_hcd_qh_add` and appends the QTD to the QH's QTD list only on
success.  Returns the new HCD state, the endpoint's `hcpriv` after the
call, and `retval`.  Note the source initializes `retval = 0` and, when QH
allocation fails, jumps to `done` without setting an error. -/
def dwc_otg_hcd_qtd_add (qtdId : Nat) (hcd : HCD)
    (ep_hcpriv : Option (Nat × QH)) (urb : URB) (alloc_ok : Bool)
    (usecs_in : Nat) (newQhId : Nat) : HCD × Option (Nat × QH) × Int :=
  match ep_hcpriv with
  | none =>
    if alloc_ok then
      let qh := dwc_otg_hcd_qh_init hcd urb usecs_in
      let r := dwc_otg_hcd_qh_add hcd newQhId qh
      if r.2.2 = 0 then
        (r.1, some (newQhId, { r.2.1 with qtd_list := r.2.1.qtd_list ++ [qtdId] }), 0)
      else
        (r.1, some (newQhId, r.2.1), r.2.2)
    else
      (hcd, none, 0)
  | some (qid, qh) =>
    let r := dwc_otg_hcd_qh_add hcd qid qh
    if r.2.2 = 0 then
      (r.1, some (qid, { r.2.1 with qtd_list := r.2.1.qtd_list ++ [qtdId] }), 0)
    else
      (r.1, some (qid, r.2.1), r.2.2)

/-- A concrete idle high-speed controller state used in the examples. -/
def hcd0 : HCD :=
  { host_channels := 8
    speed_high := true
    max_transfer_size := 65535
    frame_number := 100
    prtspd_high := true
    periodic_channels := 0
    non_periodic_channels := 0
    periodic_usecs := 0
    bandwidth_allocated := 0
    bandwidth_int_reqs := 0
    bandwidth_isoc_reqs := 0
    non_periodic_sched_inactive := []
    non_periodic_sched_active := []
    periodic_sched_inactive := []
    periodic_sched_ready := []
    periodic_sched_queued := [] }

/-- A concrete interrupt QH (50 µs per frame, one pending QTD). -/
def qh0 : QH :=
  { ep_type := EpType.interrupt
    ep_is_in := 1
    data_toggle := 0
    maxp := 64
    do_split := false
    usecs := 50
    interval := 4
    sched_frame := 100
    start_split_frame := 0
    qtd_list := [3]
    linked := false }

/-- A concrete interrupt URB on a full-speed device behind an external
high-speed hub (hub address 5). -/
def urb0 : URB :=
  { pipetype := PipeType.interrupt
    is_in := true
    dev_speed := DevSpeed.full
    has_tt := true
    tt_hub_devnum := 5
    interval := 4
    maxpacket := 64 }

/-- Failure of any of the three periodic admission checks leaves the HCD
state and the QH untouched: `schedule_periodic` returns before any
mutation. -/
theorem schedule_periodic_fail_frame (hcd : HCD) (qid : Nat) (qh : QH)
    (h : (schedule_periodic hcd qid qh).2.2 ≠ 0) :
    (schedule_periodic hcd qid qh).1 = hcd ∧
    (schedule_periodic hcd qid qh).2.1 = qh := by
  unfold schedule_periodic at h ⊢
  by_cases h1 : periodic_channel_available hcd ≠ 0
  · simp [h1]
  · by_cases h2 : check_periodic_bandwidth hcd qh ≠ 0
    · simp [h1, h2]
    · by_cases h3 : check_max_xfer_size hcd qh ≠ 0
      · simp [h1, h2, h3]
      · simp [h1, h2, h3] at h

/-- An error return from `dwc_otg_hcd_qh_add` leaves the HCD state and the
QH untouched. -/
theorem qh_add_fail_frame (hcd : HCD) (qid : Nat) (qh : QH)
    (h : (dwc_otg_hcd_qh_add hcd qid qh).2.2 ≠ 0) :
    (dwc_otg_hcd_qh_add hcd qid qh).1 = hcd ∧
    (dwc_otg_hcd_qh_add hcd qid qh).2.1 = qh := by
  unfold dwc_otg_hcd_qh_add at h ⊢
  by_cases hl : qh.linked
  · simp [hl] at h
  · by_cases hn : dwc_qh_is_non_per qh
    · simp [hl, hn] at h
    · simp only [hl, hn, Bool.false_eq_true, if_false] at h ⊢
      exact schedule_periodic_fail_frame hcd qid qh h

/-- C1: if Admit (`dwc_otg_hcd_qh_add` / `schedule_periodic`) returns the
AdmissionDenied error `-ENOSPC`, then `periodic_channels`,
`periodic_usecs`, `non_periodic_channels` and all five bucket lists are
exactly the same after the call as before it (the admission is
transactional: a failed check aborts before any state mutation). -/
theorem C1_admission_failure_transactional (hcd : HCD) (qid : Nat) (qh : QH)
    (h : (dwc_otg_hcd_qh_add hcd qid qh).2.2 = -ENOSPC) :
    (dwc_otg_hcd_qh_add hcd qid qh).1.periodic_channels = hcd.periodic_channels ∧
    (dwc_otg_hcd_qh_add hcd qid qh).1.periodic_usecs = hcd.periodic_usecs ∧
    (dwc_otg_hcd_qh_add hcd qid qh).1.non_periodic_channels = hcd.non_periodic_channels ∧
    (dwc_otg_hcd_qh_add hcd qid qh).1.non_periodic_sched_inactive = hcd.non_periodic_sched_inactive ∧
    (dwc_otg_hcd_qh_add hcd qid qh).1.non_periodic_sched_active = hcd.non_periodic_sched_active ∧
    (dwc_otg_hcd_qh_add hcd qid qh).1.periodic_sched_inactive = hcd.periodic_sched_inactive ∧
    (dwc_otg_hcd_qh_add hcd qid qh).1.periodic_sched_ready = hcd.periodic_sched_ready ∧
    (dwc_otg_hcd_qh_add hcd qid qh).1.periodic_sched_queued = hcd.periodic_sched_queued := by
  have hne : (dwc_otg_hcd_qh_add hcd qid qh).2.2 ≠ 0 := by
    rw [h]; unfold ENOSPC; omega
  obtain ⟨he, -⟩ := qh_add_fail_frame hcd qid qh hne
  rw [he]
  exact ⟨rfl, rfl, rfl, rfl, rfl, rfl, rfl, rfl⟩

/-- Witness for C1 at a concrete denied admission: no free host channel
(`host_channels = 0`). -/
theorem C1_witness :
    (dwc_otg_hcd_qh_add { hcd0 with host_channels := 0 } 2 qh0).2.2 = -ENOSPC ∧
    (dwc_otg_hcd_qh_add { hcd0 with host_channels := 0 } 2 qh0).1.periodic_channels
      = ({ hcd0 with host_channels := 0 } : HCD).periodic_channels ∧
    (dwc_otg_hcd_qh_add { hcd0 with host_channels := 0 } 2 qh0).1.periodic_usecs
      = ({ hcd0 with host_channels := 0 } : HCD).periodic_usecs :=
  ⟨by decide,
   (C1_admission_failure_transactional { hcd0 with host_channels := 0 } 2 qh0 (by decide)).1,
   (C1_admission_failure_transactional { hcd0 with host_channels := 0 } 2 qh0 (by decide)).2.1⟩

/-- C8: calling Admit on a QH that is already linked into a scheduling
bucket returns success and changes nothing at all — neither the HCD state
(so no list entry is duplicated and no counter is incremented again) nor
the QH. -/
theorem C8_admit_idempotent (hcd : HCD) (qid : Nat) (qh : QH)
    (h : qh.linked = true) :
    dwc_otg_hcd_qh_add hcd qid qh = (hcd, qh, 0) := by
  unfold dwc_otg_hcd_qh_add
  simp [h]

/-- Witness for C8 at a concrete already-admitted QH. -/
theorem C8_witness :
    dwc_otg_hcd_qh_add
        { hcd0 with periodic_sched_inactive := [1], periodic_channels := 1,
                    periodic_usecs := 50 }
        1 { qh0 with linked := true }
      = ({ hcd0 with periodic_sched_inactive := [1], periodic_channels := 1,
                     periodic_usecs := 50 },
         { qh0 with linked := true }, 0) :=
  C8_admit_idempotent
    { hcd0 with periodic_sched_inactive := [1], periodic_channels := 1,
                periodic_usecs := 50 }
    1 { qh0 with linked := true } rfl

/-- C6 (code bug): when the endpoint has no QH (`ep->hcpriv == NULL`) and
QH allocation fails, `dwc_otg_hcd_qtd_add` jumps to `done` with `retval`
still at its initialization value `0` and returns it: the allocation
failure is reported as success (`0`), contradicting both the spec and the
function's own doc comment ("0 if successful, negative error code
otherwise").  The QTD is indeed linked to no QH (the endpoint's `hcpriv`
stays empty and the HCD state is unchanged). -/
theorem C6_alloc_failure_returns_success :
    dwc_otg_hcd_qtd_add 5 hcd0 none urb0 false 0 7 = (hcd0, none, 0) ∧
    ¬ (dwc_otg_hcd_qtd_add 5 hcd0 none urb0 false 0 7).2.2 < 0 := by
  constructor
  · rfl
  · decide

/-- Interrupt and isochronous QHs are periodic (`dwc_qh_is_non_per` is
false on them). -/
theorem is_non_per_of_periodic (qh : QH)
    (h : qh.ep_type = EpType.interrupt ∨ qh.ep_type = EpType.isoc) :
    dwc_qh_is_non_per qh = false := by
  rcases h with h | h <;> simp [dwc_qh_is_non_per, h]

/-- C2 counterexample: a QH whose `usecs` (200) exceeds the high-speed
budget (100) on a controller with `periodic_usecs = 150`.  The claim's
formula `max_claimed_usecs = 100 - qh.usecs` demands
`periodic_usecs > 100 - usecs`, hence AdmissionDenied; the code instead
computes the `uint16_t` wraparound 65436, the bandwidth check passes, the
QH is admitted, and `periodic_usecs` grows to 350. -/
theorem C2_counterexample :
    periodic_channel_available { hcd0 with periodic_usecs := 150 } = 0 ∧
    check_max_xfer_size { hcd0 with periodic_usecs := 150 } { qh0 with usecs := 200 } = 0 ∧
    (({ hcd0 with periodic_usecs := 150 } : HCD).periodic_usecs : Int)
      > 100 - (({ qh0 with usecs := 200 } : QH).usecs : Int) ∧
    max_claimed_usecs { hcd0 with periodic_usecs := 150 } { qh0 with usecs := 200 } = 65436 ∧
    check_periodic_bandwidth { hcd0 with periodic_usecs := 150 } { qh0 with usecs := 200 } = 0 ∧
    (dwc_otg_hcd_qh_add { hcd0 with periodic_usecs := 150 } 2 { qh0 with usecs := 200 }).2.2 = 0 ∧
    (dwc_otg_hcd_qh_add { hcd0 with periodic_usecs := 150 } 2 { qh0 with usecs := 200 }).1.periodic_usecs = 350 := by
  refine ⟨by decide, by decide, by decide, by decide, by decide, by decide, by decide⟩

/-- C2 (amended): for a periodic QH not already in a schedule, with an
available channel and an admissible max transfer size, and whose `usecs`
does not exceed the budget constant (100 high speed / 900 full speed),
Admit computes `max_claimed_usecs` as budget − `qh.usecs`, fails with
`-ENOSPC` iff the current `periodic_usecs` is strictly greater than
`max_claimed_usecs`, and on success increases `periodic_usecs` by
`qh.usecs`.  (The budget bound on `usecs` is forced by the `uint16_t`
wraparound exhibited by the counterexample.) -/
theorem C2_bandwidth_check (hcd : HCD) (qid : Nat) (qh : QH)
    (hper : qh.ep_type = EpType.interrupt ∨ qh.ep_type = EpType.isoc)
    (hlink : qh.linked = false)
    (hch : periodic_channel_available hcd = 0)
    (hx : check_max_xfer_size hcd qh = 0)
    (hb : qh.usecs ≤ (if hcd.speed_high then 100 else 900)) :
    max_claimed_usecs hcd qh = (if hcd.speed_high then 100 else 900) - qh.usecs ∧
    ((dwc_otg_hcd_qh_add hcd qid qh).2.2 = -ENOSPC ↔
       hcd.periodic_usecs > (if hcd.speed_high then 100 else 900) - qh.usecs) ∧
    ((dwc_otg_hcd_qh_add hcd qid qh).2.2 = 0 →
       (dwc_otg_hcd_qh_add hcd qid qh).1.periodic_usecs
         = hcd.periodic_usecs + qh.usecs) := by
  have hnp := is_non_per_of_periodic qh hper
  have hmax : max_claimed_usecs hcd qh = (if hcd.speed_high then 100 else 900) - qh.usecs := by
    unfold max_claimed_usecs
    by_cases hs : hcd.speed_high <;> simp [hs] at hb ⊢ <;> omega
  refine ⟨hmax, ?_⟩
  unfold dwc_otg_hcd_qh_add schedule_periodic
  rw [hlink]
  simp only [Bool.false_eq_true, if_false, hnp, hch]
  by_cases hgt : hcd.periodic_usecs > max_claimed_usecs hcd qh
  · have hbw : check_periodic_bandwidth hcd qh = -ENOSPC := by
      unfold check_periodic_bandwidth; simp [hgt]
    rw [hmax] at hgt
    simp only [hbw]
    unfold ENOSPC
    norm_num
    exact hgt
  · have hbw : check_periodic_bandwidth hcd qh = 0 := by
      unfold check_periodic_bandwidth; simp [hgt]
    rw [hmax] at hgt
    simp only [hbw, hx]
    unfold ENOSPC
    norm_num
    omega

/-- Witness for the amended C2 at `hcd0` / `qh0` (50 µs, empty schedule):
admission succeeds and claims exactly 50 µs. -/
theorem C2_witness :
    max_claimed_usecs hcd0 qh0 = (if hcd0.speed_high then 100 else 900) - qh0.usecs ∧
    ((dwc_otg_hcd_qh_add hcd0 2 qh0).2.2 = -ENOSPC ↔
       hcd0.periodic_usecs > (if hcd0.speed_high then 100 else 900) - qh0.usecs) ∧
    ((dwc_otg_hcd_qh_add hcd0 2 qh0).2.2 = 0 →
       (dwc_otg_hcd_qh_add hcd0 2 qh0).1.periodic_usecs
         = hcd0.periodic_usecs + qh0.usecs) :=
  C2_bandwidth_check hcd0 2 qh0 (Or.inl rfl) rfl (by decide) (by decide) (by decide)

/-- C3: the subtraction `100 - qh->usecs` (high speed) of
`check_periodic_bandwidth` is truncated to the `uint16_t` local
`max_claimed_usecs`; for a QH whose `usecs` exceeds the whole 100 µs
budget the value wraps to `2^16 + 100 - usecs`, so against any state whose
claimed `periodic_usecs` is within the real budget the check does not
trigger and a QH whose own requirement exceeds the entire per-frame budget
is admitted (given a free channel and an admissible transfer size). -/
theorem C3_uint16_wraparound (hcd : HCD) (qid : Nat) (qh : QH)
    (hs : hcd.speed_high = true)
    (hgt : 100 < qh.usecs) (hlt : qh.usecs < 65536)
    (hin : hcd.periodic_usecs ≤ 100)
    (hper : qh.ep_type = EpType.interrupt ∨ qh.ep_type = EpType.isoc)
    (hlink : qh.linked = false) :
    max_claimed_usecs hcd qh = 65536 + 100 - qh.usecs ∧
    check_periodic_bandwidth hcd qh = 0 ∧
    (periodic_channel_available hcd = 0 → check_max_xfer_size hcd qh = 0 →
       (dwc_otg_hcd_qh_add hcd qid qh).2.2 = 0 ∧
       (dwc_otg_hcd_qh_add hcd qid qh).1.periodic_usecs
         = hcd.periodic_usecs + qh.usecs) := by
  have hnp := is_non_per_of_periodic qh hper
  have hmax : max_claimed_usecs hcd qh = 65536 + 100 - qh.usecs := by
    unfold max_claimed_usecs
    simp [hs]
    omega
  have hbw : check_periodic_bandwidth hcd qh = 0 := by
    unfold check_periodic_bandwidth
    rw [hmax]
    have : ¬ hcd.periodic_usecs > 65536 + 100 - qh.usecs := by omega
    simp [this]
  refine ⟨hmax, hbw, fun hch hx => ?_⟩
  unfold dwc_otg_hcd_qh_add schedule_periodic
  rw [hlink]
  simp [hnp, hch, hbw, hx]

/-- Witness for C3: a 200 µs interrupt QH is admitted on an idle
high-speed controller even though 200 µs exceeds the whole 100 µs budget;
`max_claimed_usecs` wraps to 65436. -/
theorem C3_witness :
    max_claimed_usecs hcd0 { qh0 with usecs := 200 } = 65536 + 100 - 200 ∧
    check_periodic_bandwidth hcd0 { qh0 with usecs := 200 } = 0 ∧
    (dwc_otg_hcd_qh_add hcd0 3 { qh0 with usecs := 200 }).2.2 = 0 ∧
    (dwc_otg_hcd_qh_add hcd0 3 { qh0 with usecs := 200 }).1.periodic_usecs
      = hcd0.periodic_usecs + ({ qh0 with usecs := 200 } : QH).usecs := by
  have h := C3_uint16_wraparound hcd0 3 { qh0 with usecs := 200 } rfl
    (by decide) (by decide) (by decide) (Or.inl rfl) rfl
  exact ⟨h.1, h.2.1, (h.2.2 (by decide) (by decide)).1, (h.2.2 (by decide) (by decide)).2⟩

/-- C7: the channel-availability check fails with `-ENOSPC` unless both
`periodic_channels + non_periodic_channels < host_channels` and
`periodic_channels < host_channels - 1` hold; when it succeeds and the
other two admission checks pass, `schedule_periodic` increments
`periodic_channels` by exactly one. -/
theorem C7_channel_availability (hcd : HCD) (qid : Nat) (qh : QH) :
    (periodic_channel_available hcd = -ENOSPC ↔
       ¬ (hcd.periodic_channels + hcd.non_periodic_channels < hcd.host_channels ∧
          hcd.periodic_channels < hcd.host_channels - 1)) ∧
    (periodic_channel_available hcd = 0 →
     check_periodic_bandwidth hcd qh = 0 →
     check_max_xfer_size hcd qh = 0 →
     (schedule_periodic hcd qid qh).1.periodic_channels
       = hcd.periodic_channels + 1) := by
  constructor
  · unfold periodic_channel_available
    by_cases h : hcd.periodic_channels + hcd.non_periodic_channels < hcd.host_channels ∧
        hcd.periodic_channels < hcd.host_channels - 1
    · rw [if_pos h]
      exact iff_of_false (by decide) (not_not_intro h)
    · rw [if_neg h]
      exact iff_of_true rfl h
  · intro hch hbw hx
    unfold schedule_periodic
    simp [hch, hbw, hx]

/-- Witness for C7 at the idle controller `hcd0` and QH `qh0`: the check
passes and admission reserves one channel. -/
theorem C7_witness :
    periodic_channel_available hcd0 = 0 ∧
    (schedule_periodic hcd0 2 qh0).1.periodic_channels
      = hcd0.periodic_channels + 1 :=
  ⟨by decide, (C7_channel_availability hcd0 2 qh0).2 (by decide) (by decide) (by decide)⟩

/-- The QH returned by the periodic branch of Deactivate carries exactly
the `sched_frame` and `start_split_frame` computed by
`compute_next_sched_frame` — neither removal nor the bucket moves touch
them again. -/
theorem deactivate_periodic_frame_fields (hcd : HCD) (qid : Nat) (qh : QH)
    (sns : Bool) (hnp : dwc_qh_is_non_per qh = false) :
    (dwc_otg_hcd_qh_deactivate hcd qid qh sns).2.sched_frame
      = (compute_next_sched_frame hcd qh sns).sched_frame ∧
    (dwc_otg_hcd_qh_deactivate hcd qid qh sns).2.start_split_frame
      = (compute_next_sched_frame hcd qh sns).start_split_frame := by
  unfold dwc_otg_hcd_qh_deactivate
  simp only [hnp, Bool.false_eq_true, if_false]
  by_cases hempty : (compute_next_sched_frame hcd qh sns).qtd_list = []
  · simp only [hempty, if_true]
    unfold dwc_otg_hcd_qh_remove deschedule_periodic
    split
    · exact ⟨rfl, rfl⟩
    · split <;> exact ⟨rfl, rfl⟩
  · simp only [hempty, if_false]
    split <;> exact ⟨rfl, rfl⟩

/-- Next-frame computation for a non-split periodic QH: old `sched_frame`
plus `interval`, clamped up to at least the current frame number. -/
theorem compute_next_sched_frame_nonsplit (hcd : HCD) (qh : QH) (sns : Bool)
    (hsplit : qh.do_split = false) :
    (compute_next_sched_frame hcd qh sns).sched_frame
      = max (qh.sched_frame + qh.interval) hcd.frame_number ∧
    (compute_next_sched_frame hcd qh sns).start_split_frame
      = qh.start_split_frame := by
  unfold compute_next_sched_frame dwc_frame_num_inc dwc_frame_num_le
  simp only [hsplit, Bool.false_eq_true, if_false]
  by_cases hle : qh.sched_frame + qh.interval ≤ hcd.frame_number <;>
    simp [hle] <;> omega

/-- C4: for a non-split periodic QH with a non-empty QTD list, Deactivate
sets the new `sched_frame` to the old `sched_frame` plus `interval`,
clamped up to at least the current frame number; in particular the new
`sched_frame` is at least the current frame number and at least the old
`sched_frame`. -/
theorem C4_nonsplit_frame_progression (hcd : HCD) (qid : Nat) (qh : QH)
    (sns : Bool)
    (hper : qh.ep_type = EpType.interrupt ∨ qh.ep_type = EpType.isoc)
    (hsplit : qh.do_split = false)
    (hne : qh.qtd_list ≠ []) :
    (dwc_otg_hcd_qh_deactivate hcd qid qh sns).2.sched_frame
      = max (qh.sched_frame + qh.interval) hcd.frame_number ∧
    hcd.frame_number ≤ (dwc_otg_hcd_qh_deactivate hcd qid qh sns).2.sched_frame ∧
    qh.sched_frame ≤ (dwc_otg_hcd_qh_deactivate hcd qid qh sns).2.sched_frame := by
  have hnp := is_non_per_of_periodic qh hper
  have h1 := (deactivate_periodic_frame_fields hcd qid qh sns hnp).1
  have h2 := (compute_next_sched_frame_nonsplit hcd qh sns hsplit).1
  rw [h1, h2]
  exact ⟨rfl, Nat.le_max_right _ _,
    Nat.le_trans (Nat.le_add_right _ _) (Nat.le_max_left _ _)⟩

/-- Witness for C4: `qh0` (interval 4, `sched_frame` 100) deactivated at
frame 100 moves its `sched_frame` to 104. -/
theorem C4_witness :
    (dwc_otg_hcd_qh_deactivate hcd0 2 qh0 false).2.sched_frame
      = max (qh0.sched_frame + qh0.interval) hcd0.frame_number ∧
    hcd0.frame_number ≤ (dwc_otg_hcd_qh_deactivate hcd0 2 qh0 false).2.sched_frame ∧
    qh0.sched_frame ≤ (dwc_otg_hcd_qh_deactivate hcd0 2 qh0 false).2.sched_frame :=
  C4_nonsplit_frame_progression hcd0 2 qh0 false (Or.inl rfl) rfl (by decide)

/-- C5: for a split periodic QH, Deactivate with
`sched_next_periodic_split` set puts `sched_frame` at the current frame
number, advanced by one additional frame when the current frame is within
one frame of `start_split_frame` — except for an isochronous OUT endpoint,
which gets no extra advance; `start_split_frame` is unchanged on this
path. -/
theorem C5_split_continuation (hcd : HCD) (qid : Nat) (qh : QH)
    (hper : qh.ep_type = EpType.interrupt ∨ qh.ep_type = EpType.isoc)
    (hsplit : qh.do_split = true) :
    (dwc_otg_hcd_qh_deactivate hcd qid qh true).2.sched_frame
      = (if hcd.frame_number ≤ qh.start_split_frame + 1 ∧
            ¬ (qh.ep_type = EpType.isoc ∧ qh.ep_is_in = 0)
         then hcd.frame_number + 1 else hcd.frame_number) ∧
    (dwc_otg_hcd_qh_deactivate hcd qid qh true).2.start_split_frame
      = qh.start_split_frame := by
  have hnp := is_non_per_of_periodic qh hper
  obtain ⟨h1, h2⟩ := deactivate_periodic_frame_fields hcd qid qh true hnp
  rw [h1, h2]
  unfold compute_next_sched_frame dwc_frame_num_inc dwc_frame_num_le
  simp only [hsplit, if_true]
  by_cases hle : hcd.frame_number ≤ qh.start_split_frame + 1
  · by_cases hiso : qh.ep_type = EpType.isoc ∧ qh.ep_is_in = 0
    · have hnoadv : ¬ (qh.ep_type ≠ EpType.isoc ∨ qh.ep_is_in ≠ 0) := by
        simp [hiso.1, hiso.2]
      simp [hle, hnoadv, hiso]
    · have hadv : qh.ep_type ≠ EpType.isoc ∨ qh.ep_is_in ≠ 0 := by
        by_cases h1 : qh.ep_type = EpType.isoc
        · right; intro h2; exact hiso ⟨h1, h2⟩
        · left; exact h1
      simp [hle, hadv, hiso]
  · simp [hle]

/-- Witness for C5: a split interrupt QH with `start_split_frame = 100`
deactivated at frame 100 with a pending next split lands on frame 101. -/
theorem C5_witness :
    (dwc_otg_hcd_qh_deactivate hcd0 2
        { qh0 with do_split := true, start_split_frame := 100 } true).2.sched_frame
      = (if hcd0.frame_number
            ≤ ({ qh0 with do_split := true, start_split_frame := 100 } : QH).start_split_frame + 1 ∧
            ¬ (({ qh0 with do_split := true, start_split_frame := 100 } : QH).ep_type = EpType.isoc ∧
               ({ qh0 with do_split := true, start_split_frame := 100 } : QH).ep_is_in = 0)
         then hcd0.frame_number + 1 else hcd0.frame_number) ∧
    (dwc_otg_hcd_qh_deactivate hcd0 2
        { qh0 with do_split := true, start_split_frame := 100 } true).2.start_split_frame
      = ({ qh0 with do_split := true, start_split_frame := 100 } : QH).start_split_frame :=
  C5_split_continuation hcd0 2
    { qh0 with do_split := true, start_split_frame := 100 } (Or.inl rfl) rfl

/-- The `compute_next_sched_frame` step changes only `sched_frame` and
`start_split_frame` of a QH. -/
theorem compute_next_sched_frame_other_fields (hcd : HCD) (qh : QH)
    (sns : Bool) :
    (compute_next_sched_frame hcd qh sns).qtd_list = qh.qtd_list ∧
    (compute_next_sched_frame hcd qh sns).linked = qh.linked ∧
    (compute_next_sched_frame hcd qh sns).usecs = qh.usecs ∧
    (compute_next_sched_frame hcd qh sns).ep_type = qh.ep_type := by
  simp only [compute_next_sched_frame]
  split_ifs <;> simp

/-- C10: deactivating an admitted periodic QH whose QTD list is empty
removes it from every scheduling bucket and undoes the admission
bookkeeping: `periodic_channels` drops by one and `periodic_usecs` by
`qh.usecs` (the exact inverse of the state changes made at admission). -/
theorem C10_deactivate_empty_withdraws (hcd : HCD) (qid : Nat) (qh : QH)
    (sns : Bool)
    (hper : qh.ep_type = EpType.interrupt ∨ qh.ep_type = EpType.isoc)
    (hempty : qh.qtd_list = [])
    (hlink : qh.linked = true)
    (hle : qh.usecs ≤ hcd.periodic_usecs) :
    (dwc_otg_hcd_qh_deactivate hcd qid qh sns).1.periodic_channels
      = hcd.periodic_channels - 1 ∧
    (dwc_otg_hcd_qh_deactivate hcd qid qh sns).1.periodic_usecs + qh.usecs
      = hcd.periodic_usecs ∧
    (dwc_otg_hcd_qh_deactivate hcd qid qh sns).2.linked = false ∧
    qid ∉ (dwc_otg_hcd_qh_deactivate hcd qid qh sns).1.periodic_sched_inactive ∧
    qid ∉ (dwc_otg_hcd_qh_deactivate hcd qid qh sns).1.periodic_sched_ready ∧
    qid ∉ (dwc_otg_hcd_qh_deactivate hcd qid qh sns).1.periodic_sched_queued ∧
    qid ∉ (dwc_otg_hcd_qh_deactivate hcd qid qh sns).1.non_periodic_sched_inactive ∧
    qid ∉ (dwc_otg_hcd_qh_deactivate hcd qid qh sns).1.non_periodic_sched_active := by
  have hnp := is_non_per_of_periodic qh hper
  obtain ⟨hq, hl, hu, hep⟩ := compute_next_sched_frame_other_fields hcd qh sns
  have hnp1 : dwc_qh_is_non_per (compute_next_sched_frame hcd qh sns) = false := by
    unfold dwc_qh_is_non_per at hnp ⊢
    rw [hep]
    exact hnp
  unfold dwc_otg_hcd_qh_deactivate
  simp only [hnp, Bool.false_eq_true, if_false]
  simp only [hq, hempty, eq_self_iff_true, if_true]
  unfold dwc_otg_hcd_qh_remove
  simp only [hl, hlink, Bool.true_eq_false, hnp1, Bool.false_eq_true, if_false]
  unfold deschedule_periodic qh_list_del
  simp only [hu]
  refine ⟨by trivial, by omega, by trivial, ?_, ?_, ?_, ?_, ?_⟩ <;>
    simp [List.mem_filter]

/-- Witness for C10: an admitted 50 µs QH with a drained QTD list is
withdrawn; the counters return to zero and no bucket holds it. -/
theorem C10_witness :
    (dwc_otg_hcd_qh_deactivate
        { hcd0 with periodic_channels := 1, periodic_usecs := 50,
                    periodic_sched_queued := [4] }
        4 { qh0 with qtd_list := [], linked := true } false).1.periodic_channels
      = ({ hcd0 with periodic_channels := 1, periodic_usecs := 50,
                     periodic_sched_queued := [4] } : HCD).periodic_channels - 1 ∧
    (dwc_otg_hcd_qh_deactivate
        { hcd0 with periodic_channels := 1, periodic_usecs := 50,
                    periodic_sched_queued := [4] }
        4 { qh0 with qtd_list := [], linked := true } false).1.periodic_usecs
        + ({ qh0 with qtd_list := [], linked := true } : QH).usecs
      = ({ hcd0 with periodic_channels := 1, periodic_usecs := 50,
                     periodic_sched_queued := [4] } : HCD).periodic_usecs ∧
    4 ∉ (dwc_otg_hcd_qh_deactivate
        { hcd0 with periodic_channels := 1, periodic_usecs := 50,
                    periodic_sched_queued := [4] }
        4 { qh0 with qtd_list := [], linked := true } false).1.periodic_sched_queued := by
  have h := C10_deactivate_empty_withdraws
    { hcd0 with periodic_channels := 1, periodic_usecs := 50,
                periodic_sched_queued := [4] }
    4 { qh0 with qtd_list := [], linked := true } false
    (Or.inl rfl) rfl rfl (by decide)
  exact ⟨h.1, h.2.1, h.2.2.2.2.2.1⟩

/-- Setting the low three bits with `x ||| 0x7` makes the residue modulo 8
equal to 7. -/
theorem lor_seven_mod_eight (x : Nat) : (x ||| 7) % 8 = 7 := by
  have h : (x ||| (2 ^ 3 - 1)) % 2 ^ 3 = 2 ^ 3 - 1 := by
    apply Nat.eq_of_testBit_eq
    intro i
    rw [Nat.testBit_mod_two_pow, Nat.testBit_or, Nat.testBit_two_pow_sub_one]
    by_cases hi : i < 3
    · simp [hi]
    · simp [hi]
  simpa using h

/-- C9: a periodic (interrupt or isochronous) QH created while the
controller port runs at high speed for a low- or full-speed device gets
its `interval` multiplied by 8, the low 3 bits of its `sched_frame` forced
to 1 (on top of `sched_frame = current frame + 10`), and that
`sched_frame` recorded as `start_split_frame`; for every other speed
combination `interval` is copied unchanged and
`sched_frame = current frame + 10` is left as computed. -/
theorem C9_qh_init_split_scheduling (hcd : HCD) (urb : URB) (usecs_in : Nat)
    (hper : urb.pipetype = PipeType.interrupt ∨
            urb.pipetype = PipeType.isochronous) :
    ((hcd.prtspd_high = true ∧
      (urb.dev_speed = DevSpeed.low ∨ urb.dev_speed = DevSpeed.full)) →
       (dwc_otg_hcd_qh_init hcd urb usecs_in).interval = urb.interval * 8 ∧
       (dwc_otg_hcd_qh_init hcd urb usecs_in).sched_frame
         = (hcd.frame_number + SCHEDULE_SLOP) ||| 7 ∧
       (dwc_otg_hcd_qh_init hcd urb usecs_in).sched_frame % 8 = 7 ∧
       (dwc_otg_hcd_qh_init hcd urb usecs_in).start_split_frame
         = (dwc_otg_hcd_qh_init hcd urb usecs_in).sched_frame) ∧
    (¬ (hcd.prtspd_high = true ∧
        (urb.dev_speed = DevSpeed.low ∨ urb.dev_speed = DevSpeed.full)) →
       (dwc_otg_hcd_qh_init hcd urb usecs_in).interval = urb.interval ∧
       (dwc_otg_hcd_qh_init hcd urb usecs_in).sched_frame
         = hcd.frame_number + SCHEDULE_SLOP) := by
  rcases hper with hp | hp <;>
  · constructor
    · intro hcond
      simp only [dwc_otg_hcd_qh_init, dwc_frame_num_inc, hp]
      simp [hcond, lor_seven_mod_eight]
    · intro hcond
      simp only [dwc_otg_hcd_qh_init, dwc_frame_num_inc, hp]
      simp [hcond]

/-- Witness for C9: `urb0` (full-speed interrupt endpoint behind an
external hub) on the high-speed port of `hcd0` gets `interval` 32 and a
`sched_frame` of `(100 + 10) ||| 7 = 111`. -/
theorem C9_witness :
    (dwc_otg_hcd_qh_init hcd0 urb0 50).interval = urb0.interval * 8 ∧
    (dwc_otg_hcd_qh_init hcd0 urb0 50).sched_frame
      = (hcd0.frame_number + SCHEDULE_SLOP) ||| 7 ∧
    (dwc_otg_hcd_qh_init hcd0 urb0 50).sched_frame % 8 = 7 ∧
    (dwc_otg_hcd_qh_init hcd0 urb0 50).start_split_frame
      = (dwc_otg_hcd_qh_init hcd0 urb0 50).sched_frame :=
  (C9_qh_init_split_scheduling hcd0 urb0 50 (Or.inl rfl)).1 ⟨rfl, Or.inr rfl⟩

end DwcOtg
